import Mathlib

/-!
Verification of the AR aggregation and aging-classification engine of
`src/server.py` (Oracle Fusion AR MCP server), via a shallow embedding.

Conventions of the embedding:
* JSON numbers (currency amounts) are modelled as exact rationals `ℚ`;
  Python `round(x, 2)` is modelled by `round2` (banker's rounding on `ℚ`).
* A JSON field that may be absent or `null` is an `Option`; `dict.get`
  returning `None` for a missing key means absent and `null` coincide.
* Python truthiness on optional strings (`if not s:`) treats both `None`
  and `""` as falsy; see `optTruthy` / `dueStringOf`.
* The upstream fetch is a parameter: each tool takes the already-decoded
  record list (and the `hasMore` flag) or a failure, so the pure
  aggregation logic is a total function of the fetched records.
-/

/-- A calendar date (proleptic Gregorian), as produced by parsing the
first ten characters `YYYY-MM-DD` of an ISO date string. The parser only
produces years in `1..9999`, months `1..12` and in-range days. -/
structure Date where
  year : Nat
  month : Nat
  day : Nat
deriving DecidableEq

/-- Gregorian leap-year test. -/
def isLeap (y : Nat) : Bool :=
  y % 4 = 0 && (y % 100 ≠ 0 || y % 400 = 0)

/-- Number of days in the given month of the given year. -/
def daysInMonth (y m : Nat) : Nat :=
  match m with
  | 2 => if isLeap y then 29 else 28
  | 4 => 30
  | 6 => 30
  | 9 => 30
  | 11 => 30
  | _ => 31

/-- Days in the year strictly before month `m` (1-based). -/
def daysBeforeMonth (y m : Nat) : Nat :=
  let base :=
    match m with
    | 1 => 0
    | 2 => 31
    | 3 => 59
    | 4 => 90
    | 5 => 120
    | 6 => 151
    | 7 => 181
    | 8 => 212
    | 9 => 243
    | 10 => 273
    | 11 => 304
    | _ => 334
  if 2 < m && isLeap y then base + 1 else base

/-- Proleptic-Gregorian day ordinal of a date (as in Python
`date.toordinal`): day 1 is 0001-01-01. -/
def toOrdinal (d : Date) : Nat :=
  365 * (d.year - 1) + (d.year - 1) / 4 - (d.year - 1) / 100 + (d.year - 1) / 400
    + daysBeforeMonth d.year d.month + d.day

/-- Signed difference `(today - due).days` between two dates, as Python
`date` subtraction yields. -/
def daysPastDue (today due : Date) : Int :=
  (toOrdinal today : Int) - (toOrdinal due : Int)

/-- Value of a decimal digit character. -/
def digitVal (c : Char) : Nat := c.toNat - 48

/-- Models `s.replace("Z", "+00:00")` from `get_aging_summary`: every
occurrence of the single character `Z` is replaced by `+00:00`. -/
def replaceZ : List Char → List Char
  | [] => []
  | c :: rest =>
    if c = 'Z' then '+' :: '0' :: '0' :: ':' :: '0' :: '0' :: replaceZ rest
    else c :: replaceZ rest

/-- Range-check a parsed year/month/day triple, as Python `datetime`
construction does (year `1..9999`, month `1..12`, day within month). -/
def mkValidDate (y m d : Nat) : Option Date :=
  if 1 ≤ y ∧ y ≤ 9999 ∧ 1 ≤ m ∧ m ≤ 12 ∧ 1 ≤ d ∧ d ≤ daysInMonth y m then
    some ⟨y, m, d⟩
  else none

/-- Models the date part of Python `datetime.fromisoformat(s).date()`:
the first ten characters must be `YYYY-MM-DD` with zero-padded decimal
digits; a continuation is only accepted after a `T` separator (the time
component itself is not further validated, which is immaterial here);
out-of-range components fail. -/
def fromisoDate (cs : List Char) : Option Date :=
  match cs with
  | y1 :: y2 :: y3 :: y4 :: '-' :: m1 :: m2 :: '-' :: d1 :: d2 :: rest =>
    if y1.isDigit && y2.isDigit && y3.isDigit && y4.isDigit
        && m1.isDigit && m2.isDigit && d1.isDigit && d2.isDigit then
      match rest with
      | [] =>
        mkValidDate
          (1000 * digitVal y1 + 100 * digitVal y2 + 10 * digitVal y3 + digitVal y4)
          (10 * digitVal m1 + digitVal m2)
          (10 * digitVal d1 + digitVal d2)
      | 'T' :: _ =>
        mkValidDate
          (1000 * digitVal y1 + 100 * digitVal y2 + 10 * digitVal y3 + digitVal y4)
          (10 * digitVal m1 + digitVal m2)
          (10 * digitVal d1 + digitVal d2)
      | _ => none
    else none
  | _ => none

/-- Round-half-to-even to the nearest integer, as Python `round` does on
an exactly represented value. -/
def roundHalfEven (q : ℚ) : Int :=
  let f := ⌊q⌋
  let r := q - (f : ℚ)
  if r < 1 / 2 then f
  else if 1 / 2 < r then f + 1
  else if f % 2 = 0 then f else f + 1

/-- Models Python `round(x, 2)` on exact rationals. -/
def round2 (q : ℚ) : ℚ := (roundHalfEven (q * 100) : ℚ) / 100

/-- Raw upstream invoice record (`items` element of
`receivablesInvoices`), restricted to the fields the server reads.
Absent and `null` JSON fields are both `none`. -/
structure RawInvoice where
  CustomerTransactionId : Option Int
  TransactionNumber : Option String
  CustomerAccountId : Option String
  BillToCustomerName : Option String
  TransactionDate : Option String
  DueDate : Option String
  EnteredAmount : Option ℚ
  BalanceDue : Option ℚ
  EnteredCurrencyCode : Option String
  Status : Option String
  BusinessUnit : Option String
deriving DecidableEq

/-- The five aging buckets of `get_aging_summary`; the constructors
correspond to the JSON keys `current`, `1_30_days`, `31_60_days`,
`61_90_days`, `over_90_days`. -/
inductive Bucket where
  | current
  | d1_30
  | d31_60
  | d61_90
  | over_90
deriving DecidableEq

/-- The bucket-selection chain of `get_aging_summary` (lines 530-539 of
`src/server.py`), applied to the signed `days_past_due`. -/
def classify (days_past_due : Int) : Bucket :=
  if days_past_due ≤ 0 then Bucket.current
  else if days_past_due ≤ 30 then Bucket.d1_30
  else if days_past_due ≤ 60 then Bucket.d31_60
  else if days_past_due ≤ 90 then Bucket.d61_90
  else Bucket.over_90

/-- One entry of the `invoices` detail list built by `get_aging_summary`
(lines 544-551): `days_past_due` is the clamped `max(0, days_past_due)`
that the server reports and sorts by. -/
structure AgedInvoice where
  invoice_number : Option String
  customer_name : Option String
  due_date : String
  days_past_due : Int
  balance_due : ℚ
  aging_bucket : Bucket
deriving DecidableEq

/-- `inv.get("BalanceDue") or 0`: a missing/null balance is `0` (and so
is a literal `0`, which Python truthiness also maps to `0`). -/
def balanceOr0 (inv : RawInvoice) : ℚ := inv.BalanceDue.getD 0

/-- `due_date_str = inv.get("DueDate"); if not due_date_str: ...` —
the due-date string, with Python falsiness: absent or empty is `none`. -/
def dueStringOf (inv : RawInvoice) : Option String :=
  match inv.DueDate with
  | none => none
  | some s => if s = "" then none else some s

/-- The parsed due date of an invoice, when its due-date string is
present (truthy) and parses after the `Z` → `+00:00` substitution. -/
def parsedDue (inv : RawInvoice) : Option Date :=
  (dueStringOf inv).bind (fun s => fromisoDate (replaceZ s.data))

/-- The per-invoice body of the `get_aging_summary` loop (lines
514-551): skip when the balance is not positive, when the due-date
string is falsy, or when it fails to parse; otherwise classify by the
signed days past due and build the detail entry (with clamped
`days_past_due`). -/
def agedOf (today : Date) (inv : RawInvoice) : Option AgedInvoice :=
  if balanceOr0 inv ≤ 0 then none
  else
    match dueStringOf inv with
    | none => none
    | some s =>
      match fromisoDate (replaceZ s.data) with
      | none => none
      | some due =>
        some
          { invoice_number := inv.TransactionNumber
            customer_name := inv.BillToCustomerName
            due_date := s
            days_past_due := max 0 (daysPastDue today due)
            balance_due := balanceOr0 inv
            aging_bucket := classify (daysPastDue today due) }

/-- The aging detail list in upstream record order (before sorting). -/
def agedInvoices (today : Date) (items : List RawInvoice) : List AgedInvoice :=
  items.filterMap (agedOf today)

/-- Loop state of `get_aging_summary`: per-bucket running count and
(full-precision) running amount, plus the detail list in append order. -/
structure AgingAcc where
  counts : Bucket → Nat
  amounts : Bucket → ℚ
  aged : List AgedInvoice

/-- One iteration of the `get_aging_summary` loop: a skipped invoice
leaves the state unchanged; otherwise the chosen bucket's count and
amount are incremented and the entry is appended. -/
def agingStep (today : Date) (acc : AgingAcc) (inv : RawInvoice) : AgingAcc :=
  match agedOf today inv with
  | none => acc
  | some a =>
    { counts := fun b => if b = a.aging_bucket then acc.counts b + 1 else acc.counts b
      amounts := fun b => if b = a.aging_bucket then acc.amounts b + a.balance_due else acc.amounts b
      aged := acc.aged ++ [a] }

/-- Initial loop state: every bucket at count 0 and amount 0. -/
def agingInit : AgingAcc := ⟨fun _ => 0, fun _ => 0, []⟩

/-- The loop of `get_aging_summary` over the fetched `items`. -/
def agingAcc (today : Date) (items : List RawInvoice) : AgingAcc :=
  items.foldl (agingStep today) agingInit

/-- An invoice record qualifies for aging exactly when its balance due
is positive and its due date is present and parseable. -/
def qualifies (inv : RawInvoice) : Bool :=
  decide (0 < balanceOr0 inv) && (parsedDue inv).isSome

/-- Descending order on the reported (clamped) days past due; the sort
key `x["days_past_due"]` with `reverse=True` of line 553. -/
def agedGE (a b : AgedInvoice) : Prop :=
  b.days_past_due ≤ a.days_past_due

instance : DecidableRel agedGE :=
  fun a b => inferInstanceAs (Decidable (b.days_past_due ≤ a.days_past_due))

instance : IsTotal AgedInvoice agedGE :=
  ⟨fun a b => le_total b.days_past_due a.days_past_due⟩

instance : IsTrans AgedInvoice agedGE :=
  ⟨fun _ _ _ hab hbc => le_trans hbc hab⟩

/-- One rendered bucket of the response: its count and its amount
rounded for display. -/
structure BucketOut where
  count : Nat
  amount : ℚ
deriving DecidableEq

/-- Success payload of `oracle_ar_get_aging_summary` (lines 555-564). -/
structure AgingSummaryOutput where
  aging_buckets : Bucket → BucketOut
  total_outstanding : ℚ
  total_open_invoices : Nat
  invoices : List AgedInvoice
  has_more : Bool

/-- The pure core of `get_aging_summary` (lines 503-564), as a function
of the reference date `today = date.today()`, the fetched `items` and
the upstream `hasMore` flag. Bucket amounts are rounded per bucket in
the response; `total_outstanding` sums the unrounded accumulated
amounts and rounds once; `total_open_invoices` sums the bucket counts;
the detail list is the loop's list sorted stably by descending (clamped)
days past due. Python's `list.sort` is a stable sort, modelled here by
the stable `List.insertionSort` (stable sorts on one key agree). -/
def get_aging_summary (today : Date) (items : List RawInvoice) (hasMore : Bool) :
    AgingSummaryOutput :=
  let acc := agingAcc today items
  { aging_buckets := fun b => ⟨acc.counts b, round2 (acc.amounts b)⟩
    total_outstanding :=
      round2 (acc.amounts Bucket.current + acc.amounts Bucket.d1_30
        + acc.amounts Bucket.d31_60 + acc.amounts Bucket.d61_90
        + acc.amounts Bucket.over_90)
    total_open_invoices :=
      acc.counts Bucket.current + acc.counts Bucket.d1_30 + acc.counts Bucket.d31_60
        + acc.counts Bucket.d61_90 + acc.counts Bucket.over_90
    invoices := List.insertionSort agedGE acc.aged
    has_more := hasMore }

/-- Raw upstream receipt record (`items` element of `standardReceipts`),
restricted to the fields the server reads. -/
structure RawReceipt where
  CashReceiptId : Option Int
  ReceiptNumber : Option String
  CustomerAccountId : Option String
  CustomerName : Option String
  ReceiptDate : Option String
  Amount : Option ℚ
  CurrencyCode : Option String
  Status : Option String
  PaymentMethod : Option String
  BusinessUnit : Option String
deriving DecidableEq

/-- Raw upstream customer-account-activity record
(`receivablesCustomerAccountActivities`). -/
structure RawActivity where
  ActivityId : Option Int
  CustomerAccountId : Option String
  CustomerName : Option String
  TransactionNumber : Option String
  TransactionType : Option String
  TransactionDate : Option String
  Amount : Option ℚ
  CurrencyCode : Option String
  Status : Option String
deriving DecidableEq

/-- Projected invoice record built by `list_invoices` (lines 244-256):
every source field is carried over under the output name, preserving
absence/null. -/
structure ProjectedInvoice where
  invoice_id : Option Int
  invoice_number : Option String
  customer_account_id : Option String
  customer_name : Option String
  invoice_date : Option String
  due_date : Option String
  amount : Option ℚ
  balance_due : Option ℚ
  currency : Option String
  status : Option String
  business_unit : Option String
deriving DecidableEq

/-- The per-record projection of `list_invoices`. -/
def projectInvoice (inv : RawInvoice) : ProjectedInvoice :=
  { invoice_id := inv.CustomerTransactionId
    invoice_number := inv.TransactionNumber
    customer_account_id := inv.CustomerAccountId
    customer_name := inv.BillToCustomerName
    invoice_date := inv.TransactionDate
    due_date := inv.DueDate
    amount := inv.EnteredAmount
    balance_due := inv.BalanceDue
    currency := inv.EnteredCurrencyCode
    status := inv.Status
    business_unit := inv.BusinessUnit }

/-- Projected receipt record built by `list_receipts` (lines 308-319). -/
structure ProjectedReceipt where
  receipt_id : Option Int
  receipt_number : Option String
  customer_account_id : Option String
  customer_name : Option String
  receipt_date : Option String
  amount : Option ℚ
  currency : Option String
  status : Option String
  payment_method : Option String
  business_unit : Option String
deriving DecidableEq

/-- The per-record projection of `list_receipts`. -/
def projectReceipt (rcpt : RawReceipt) : ProjectedReceipt :=
  { receipt_id := rcpt.CashReceiptId
    receipt_number := rcpt.ReceiptNumber
    customer_account_id := rcpt.CustomerAccountId
    customer_name := rcpt.CustomerName
    receipt_date := rcpt.ReceiptDate
    amount := rcpt.Amount
    currency := rcpt.CurrencyCode
    status := rcpt.Status
    payment_method := rcpt.PaymentMethod
    business_unit := rcpt.BusinessUnit }

/-- Projected activity record built by `list_customer_activities`
(lines 363-373). -/
structure ProjectedActivity where
  activity_id : Option Int
  customer_account_id : Option String
  customer_name : Option String
  transaction_number : Option String
  transaction_type : Option String
  transaction_date : Option String
  amount : Option ℚ
  currency : Option String
  status : Option String
deriving DecidableEq

/-- The per-record projection of `list_customer_activities`. -/
def projectActivity (act : RawActivity) : ProjectedActivity :=
  { activity_id := act.ActivityId
    customer_account_id := act.CustomerAccountId
    customer_name := act.CustomerName
    transaction_number := act.TransactionNumber
    transaction_type := act.TransactionType
    transaction_date := act.TransactionDate
    amount := act.Amount
    currency := act.CurrencyCode
    status := act.Status }

/-- Success payload of `oracle_ar_list_invoices` (lines 258-266). -/
structure ListInvoicesOutput where
  invoices : List ProjectedInvoice
  count : Nat
  total_amount : ℚ
  total_balance_due : ℚ
  has_more : Bool
  offset : Nat
  limit : Nat
deriving DecidableEq

/-- The pure core of `list_invoices`: project every fetched record,
count them, and sum `amount` and `balance_due` with `x or 0`
null-as-zero semantics. Note: these two totals are NOT rounded in the
source. -/
def list_invoices (items : List RawInvoice) (hasMore : Bool) (lim off : Nat) :
    ListInvoicesOutput :=
  let invoices := items.map projectInvoice
  { invoices := invoices
    count := invoices.length
    total_amount := (invoices.map (fun i => i.amount.getD 0)).sum
    total_balance_due := (invoices.map (fun i => i.balance_due.getD 0)).sum
    has_more := hasMore
    offset := off
    limit := lim }

/-- Success payload of `oracle_ar_list_receipts` (lines 321-328). -/
structure ListReceiptsOutput where
  receipts : List ProjectedReceipt
  count : Nat
  total_collected : ℚ
  has_more : Bool
  offset : Nat
  limit : Nat
deriving DecidableEq

/-- The pure core of `list_receipts`; `total_collected` is the
null-as-zero sum of the projected amounts, not rounded in the source. -/
def list_receipts (items : List RawReceipt) (hasMore : Bool) (lim off : Nat) :
    ListReceiptsOutput :=
  let receipts := items.map projectReceipt
  { receipts := receipts
    count := receipts.length
    total_collected := (receipts.map (fun r => r.amount.getD 0)).sum
    has_more := hasMore
    offset := off
    limit := lim }

/-- Success payload of `oracle_ar_list_customer_activities`
(lines 375-381). -/
structure ListActivitiesOutput where
  activities : List ProjectedActivity
  count : Nat
  has_more : Bool
  offset : Nat
  limit : Nat
deriving DecidableEq

/-- The pure core of `list_customer_activities`. -/
def list_customer_activities (items : List RawActivity) (hasMore : Bool) (lim off : Nat) :
    ListActivitiesOutput :=
  let activities := items.map projectActivity
  { activities := activities
    count := activities.length
    has_more := hasMore
    offset := off
    limit := lim }

/-- Per-invoice summary entry of `get_customer_summary`
(lines 432-441). -/
structure InvoiceSummary where
  invoice_number : Option String
  invoice_date : Option String
  due_date : Option String
  amount : Option ℚ
  balance_due : Option ℚ
  status : Option String
deriving DecidableEq

/-- Per-receipt summary entry of `get_customer_summary`
(lines 443-450). -/
structure ReceiptSummary where
  receipt_number : Option String
  receipt_date : Option String
  amount : Option ℚ
  payment_method : Option String
deriving DecidableEq

/-- The `customer` object of the summary payload (lines 453-456). -/
structure CustomerInfo where
  customer_account_id : String
  customer_name : Option String
deriving DecidableEq

/-- The `summary` object of the summary payload (lines 457-464). -/
structure SummaryInfo where
  total_invoiced : ℚ
  total_paid : ℚ
  outstanding_balance : ℚ
  invoice_count : Nat
  open_invoice_count : Nat
  receipt_count : Nat
deriving DecidableEq

/-- Success payload of `oracle_ar_get_customer_summary`
(lines 452-467). -/
structure CustomerSummaryOutput where
  customer : CustomerInfo
  summary : SummaryInfo
  invoices : List InvoiceSummary
  receipts : List ReceiptSummary
deriving DecidableEq

/-- The pure core of `get_customer_summary` (lines 405-467): null-as-
zero sums over both record sets at full precision, the customer-name
fallback (first invoice's name, else first receipt's name, else null),
the open-invoice count (`BalanceDue or 0 > 0`), and the two summary
lists; the three totals are rounded to 2 decimals at output. -/
def customer_summary (customer_id : String) (invoices : List RawInvoice)
    (receipts : List RawReceipt) : CustomerSummaryOutput :=
  let total_invoiced := (invoices.map (fun i => i.EnteredAmount.getD 0)).sum
  let total_balance_due := (invoices.map (fun i => i.BalanceDue.getD 0)).sum
  let total_paid := (receipts.map (fun r => r.Amount.getD 0)).sum
  let customer_name :=
    match invoices with
    | inv :: _ => inv.BillToCustomerName
    | [] =>
      match receipts with
      | rcpt :: _ => rcpt.CustomerName
      | [] => none
  let open_invoices := invoices.filter (fun i => decide (0 < i.BalanceDue.getD 0))
  { customer := { customer_account_id := customer_id, customer_name := customer_name }
    summary :=
      { total_invoiced := round2 total_invoiced
        total_paid := round2 total_paid
        outstanding_balance := round2 total_balance_due
        invoice_count := invoices.length
        open_invoice_count := open_invoices.length
        receipt_count := receipts.length }
    invoices := invoices.map (fun inv =>
      { invoice_number := inv.TransactionNumber
        invoice_date := inv.TransactionDate
        due_date := inv.DueDate
        amount := inv.EnteredAmount
        balance_due := inv.BalanceDue
        status := inv.Status })
    receipts := receipts.map (fun rcpt =>
      { receipt_number := rcpt.ReceiptNumber
        receipt_date := rcpt.ReceiptDate
        amount := rcpt.Amount
        payment_method := rcpt.PaymentMethod }) }

/-- The typed filter parameters of `oracle_ar_list_invoices`
(`InvoiceLookupInput`, lines 47-58). The `status` field is declared by
the input model. -/
structure InvoiceLookupInput where
  base_url : String
  username : String
  password : String
  customer_account_id : Option String
  invoice_number : Option String
  status : Option String
  limit : Nat
  offset : Nat
deriving DecidableEq

/-- Python truthiness of an optional string: `None` and `""` are falsy. -/
def optTruthy : Option String → Bool
  | none => false
  | some s => !s.isEmpty

/-- The query parameters sent upstream: the pagination pair and the
optional combined `q` filter expression. -/
structure QueryParams where
  limit : Nat
  offset : Nat
  q : Option String
deriving DecidableEq

/-- The upstream query built by `list_invoices` (lines 226-235): join
each truthy equality filter as `Field=Value` with `;`, customer id
before invoice number; omit `q` when no filter is present. -/
def invoiceQueryParams (p : InvoiceLookupInput) : QueryParams :=
  let filters :=
    (if optTruthy p.customer_account_id then
      ["CustomerAccountId=" ++ p.customer_account_id.getD ""] else [])
    ++ (if optTruthy p.invoice_number then
      ["TransactionNumber=" ++ p.invoice_number.getD ""] else [])
  { limit := p.limit
    offset := p.offset
    q := if filters.isEmpty then none else some (String.intercalate ";" filters) }

/-- The failures `_handle_api_error` distinguishes (lines 136-158): an
HTTP status error carrying the response body, a timeout, a transport
connection error, or any other exception with its type name and
message. -/
inductive ApiError where
  | httpStatus (status : Nat) (body : String)
  | timeout
  | connectError
  | other (name : String) (msg : String)
deriving DecidableEq

/-- The structured error payload: the `error` message and the optional
`detail` attached only by the generic non-2xx branch. -/
structure ErrorPayload where
  error : String
  detail : Option String
deriving DecidableEq

/-- `_handle_api_error` (lines 136-158): the fixed taxonomy of error
payloads. The generic branch's `detail` (parsed JSON body or raw text)
is modelled as the raw body string. -/
def handle_api_error : ApiError → ErrorPayload
  | ApiError.httpStatus 401 _ =>
    ⟨"Authentication failed. Check username and password.", none⟩
  | ApiError.httpStatus 403 _ =>
    ⟨"Permission denied. Check your Oracle Fusion role permissions.", none⟩
  | ApiError.httpStatus 404 _ =>
    ⟨"Resource not found. Check the endpoint or filter parameters.", none⟩
  | ApiError.httpStatus 429 _ =>
    ⟨"Rate limit exceeded. Wait before retrying.", none⟩
  | ApiError.httpStatus s body => ⟨"API error " ++ toString s, some body⟩
  | ApiError.timeout =>
    ⟨"Request timed out. Oracle Fusion may be slow or unreachable.", none⟩
  | ApiError.connectError =>
    ⟨"Connection failed. Check the base URL and network connectivity.", none⟩
  | ApiError.other n m => ⟨"Unexpected error: " ++ n ++ ": " ++ m, none⟩

/-- A tool invocation returns either a complete success payload or a
complete error payload: the `try`/`except` of each tool body returns
`_handle_api_error(e)` on any fetch failure and never re-raises. -/
inductive ToolResult (α : Type) where
  | success (val : α)
  | failure (err : ErrorPayload)
deriving DecidableEq

/-- The `oracle_ar_list_invoices` tool: on a fetch failure the
normalized error payload, otherwise the aggregation of the fetched
items. -/
def list_invoices_tool (p : InvoiceLookupInput)
    (fetch : Except ApiError (List RawInvoice × Bool)) :
    ToolResult ListInvoicesOutput :=
  match fetch with
  | Except.error e => ToolResult.failure (handle_api_error e)
  | Except.ok (items, hm) => ToolResult.success (list_invoices items hm p.limit p.offset)

/-- The `oracle_ar_list_receipts` tool. -/
def list_receipts_tool (lim off : Nat)
    (fetch : Except ApiError (List RawReceipt × Bool)) :
    ToolResult ListReceiptsOutput :=
  match fetch with
  | Except.error e => ToolResult.failure (handle_api_error e)
  | Except.ok (items, hm) => ToolResult.success (list_receipts items hm lim off)

/-- The `oracle_ar_list_customer_activities` tool. -/
def list_customer_activities_tool (lim off : Nat)
    (fetch : Except ApiError (List RawActivity × Bool)) :
    ToolResult ListActivitiesOutput :=
  match fetch with
  | Except.error e => ToolResult.failure (handle_api_error e)
  | Except.ok (items, hm) => ToolResult.success (list_customer_activities items hm lim off)

/-- The `oracle_ar_get_customer_summary` tool: the invoice fetch runs
first; a failure of either fetch aborts the whole summary with the
normalized error payload. -/
def get_customer_summary_tool (customer_id : String)
    (invFetch : Except ApiError (List RawInvoice))
    (rcptFetch : Except ApiError (List RawReceipt)) :
    ToolResult CustomerSummaryOutput :=
  match invFetch with
  | Except.error e => ToolResult.failure (handle_api_error e)
  | Except.ok invoices =>
    match rcptFetch with
    | Except.error e => ToolResult.failure (handle_api_error e)
    | Except.ok receipts => ToolResult.success (customer_summary customer_id invoices receipts)

/-- The `oracle_ar_get_aging_summary` tool, parameterized by the
reference date `date.today()`. -/
def get_aging_summary_tool (today : Date)
    (fetch : Except ApiError (List RawInvoice × Bool)) :
    ToolResult AgingSummaryOutput :=
  match fetch with
  | Except.error e => ToolResult.failure (handle_api_error e)
  | Except.ok (items, hm) => ToolResult.success (get_aging_summary today items hm)

/-! ### Helper lemmas about the aging loop -/

/-- An invoice yields an aging entry exactly when it qualifies
(positive balance and a present, parseable due date). -/
theorem agedOf_isSome (today : Date) (inv : RawInvoice) :
    (agedOf today inv).isSome = qualifies inv := by
  unfold agedOf qualifies parsedDue
  by_cases hb : balanceOr0 inv ≤ 0
  · have h0 : ¬ (0 < balanceOr0 inv) := not_lt.mpr hb
    simp [hb, h0]
  · have h0 : 0 < balanceOr0 inv := lt_of_not_le hb
    cases hd : dueStringOf inv with
    | none => simp [hb, hd, h0]
    | some s =>
      cases hp : fromisoDate (replaceZ s.data) with
      | none => simp [hb, hd, hp, h0]
      | some d => simp [hb, hd, hp, h0]

/-- The detail list accumulated by the loop is the order-preserving
`filterMap` of the per-invoice body. -/
theorem foldl_aging_aged (today : Date) (items : List RawInvoice) :
    ∀ acc : AgingAcc,
      (items.foldl (agingStep today) acc).aged
        = acc.aged ++ items.filterMap (agedOf today) := by
  induction items with
  | nil => intro acc; simp
  | cons inv rest ih =>
    intro acc
    rw [List.foldl_cons, List.filterMap_cons]
    cases h : agedOf today inv with
    | none => simp [agingStep, h, ih]
    | some a => simp [agingStep, h, ih]

/-- Each bucket counter of the loop counts exactly the produced aging
entries classified into that bucket. -/
theorem foldl_aging_counts (today : Date) (items : List RawInvoice) :
    ∀ (acc : AgingAcc) (b : Bucket),
      (items.foldl (agingStep today) acc).counts b
        = acc.counts b
          + ((items.filterMap (agedOf today)).filter
              (fun a => decide (a.aging_bucket = b))).length := by
  induction items with
  | nil => intro acc b; simp
  | cons inv rest ih =>
    intro acc b
    rw [List.foldl_cons, List.filterMap_cons]
    cases h : agedOf today inv with
    | none => simp [agingStep, h, ih]
    | some a =>
      rw [ih]
      by_cases hb : a.aging_bucket = b
      · simp [agingStep, h, hb, List.filter_cons]
        omega
      · have hb' : ¬ b = a.aging_bucket := fun hh => hb hh.symm
        simp [agingStep, h, hb, hb', List.filter_cons]

/-- Each bucket amount of the loop is the full-precision sum of the
balances of the produced aging entries classified into that bucket. -/
theorem foldl_aging_amounts (today : Date) (items : List RawInvoice) :
    ∀ (acc : AgingAcc) (b : Bucket),
      (items.foldl (agingStep today) acc).amounts b
        = acc.amounts b
          + (((items.filterMap (agedOf today)).filter
              (fun a => decide (a.aging_bucket = b))).map
                (fun a => a.balance_due)).sum := by
  induction items with
  | nil => intro acc b; simp
  | cons inv rest ih =>
    intro acc b
    rw [List.foldl_cons, List.filterMap_cons]
    cases h : agedOf today inv with
    | none => simp [agingStep, h, ih]
    | some a =>
      rw [ih]
      by_cases hb : a.aging_bucket = b
      · simp [agingStep, h, hb, List.filter_cons]
        ring
      · have hb' : ¬ b = a.aging_bucket := fun hh => hb hh.symm
        simp [agingStep, h, hb, hb', List.filter_cons]

/-- The five per-bucket selections partition any list of aging entries:
their lengths add up to the whole list's length. -/
theorem bucket_counts_partition (l : List AgedInvoice) :
    (l.filter (fun a => decide (a.aging_bucket = Bucket.current))).length
      + (l.filter (fun a => decide (a.aging_bucket = Bucket.d1_30))).length
      + (l.filter (fun a => decide (a.aging_bucket = Bucket.d31_60))).length
      + (l.filter (fun a => decide (a.aging_bucket = Bucket.d61_90))).length
      + (l.filter (fun a => decide (a.aging_bucket = Bucket.over_90))).length
      = l.length := by
  induction l with
  | nil => simp
  | cons a t ih =>
    cases h : a.aging_bucket <;> simp [List.filter_cons, h] <;> omega

/-- The five per-bucket balance sums add up to the total balance over
any list of aging entries. -/
theorem bucket_amounts_partition (l : List AgedInvoice) :
    ((l.filter (fun a => decide (a.aging_bucket = Bucket.current))).map
        (fun a => a.balance_due)).sum
      + ((l.filter (fun a => decide (a.aging_bucket = Bucket.d1_30))).map
        (fun a => a.balance_due)).sum
      + ((l.filter (fun a => decide (a.aging_bucket = Bucket.d31_60))).map
        (fun a => a.balance_due)).sum
      + ((l.filter (fun a => decide (a.aging_bucket = Bucket.d61_90))).map
        (fun a => a.balance_due)).sum
      + ((l.filter (fun a => decide (a.aging_bucket = Bucket.over_90))).map
        (fun a => a.balance_due)).sum
      = (l.map (fun a => a.balance_due)).sum := by
  induction l with
  | nil => simp
  | cons a t ih =>
    cases h : a.aging_bucket <;> simp [List.filter_cons, h] <;> linarith

/-- The number of `filterMap` survivors equals the number of inputs on
which the function succeeds. -/
theorem length_filterMap_isSome {α β : Type} (f : α → Option β) (l : List α) :
    (l.filterMap f).length = (l.filter (fun x => (f x).isSome)).length := by
  induction l with
  | nil => rfl
  | cons a t ih =>
    rw [List.filterMap_cons, List.filter_cons]
    cases h : f a <;> simp [h, ih]

/-- Per-bucket counts of `agingAcc`, from the zero initial state. -/
theorem agingAcc_counts (today : Date) (items : List RawInvoice) (b : Bucket) :
    (agingAcc today items).counts b
      = ((agedInvoices today items).filter (fun a => decide (a.aging_bucket = b))).length := by
  have h := foldl_aging_counts today items agingInit b
  simpa [agingAcc, agingInit, agedInvoices] using h

/-- Per-bucket amounts of `agingAcc`, from the zero initial state. -/
theorem agingAcc_amounts (today : Date) (items : List RawInvoice) (b : Bucket) :
    (agingAcc today items).amounts b
      = (((agedInvoices today items).filter (fun a => decide (a.aging_bucket = b))).map
          (fun a => a.balance_due)).sum := by
  have h := foldl_aging_amounts today items agingInit b
  simpa [agingAcc, agingInit, agedInvoices] using h

/-- The loop's detail list is `agedInvoices` (upstream order). -/
theorem agingAcc_aged (today : Date) (items : List RawInvoice) :
    (agingAcc today items).aged = agedInvoices today items := by
  have h := foldl_aging_aged today items agingInit
  simpa [agingAcc, agingInit, agedInvoices] using h

/-- The aging detail list has one entry per qualifying invoice. -/
theorem agedInvoices_length (today : Date) (items : List RawInvoice) :
    (agedInvoices today items).length = (items.filter qualifies).length := by
  unfold agedInvoices
  rw [length_filterMap_isSome]
  congr 1
  exact List.filter_congr (fun x _ => agedOf_isSome today x)

/-- Claim C1: for every fetched invoice set and reference date, the
aging buckets of `get_aging_summary` partition the qualifying open
invoices: the five bucket counts sum to the number of invoices with
positive balance due and a parseable due date, that sum is the reported
`total_open_invoices`, an invoice yields an aging entry (hence a bucket
membership) exactly when it qualifies, and each bucket's count is
exactly the number of detail entries classified into it. -/
theorem claim_C1 (today : Date) (items : List RawInvoice) (hm : Bool) :
    ((get_aging_summary today items hm).aging_buckets Bucket.current).count
        + ((get_aging_summary today items hm).aging_buckets Bucket.d1_30).count
        + ((get_aging_summary today items hm).aging_buckets Bucket.d31_60).count
        + ((get_aging_summary today items hm).aging_buckets Bucket.d61_90).count
        + ((get_aging_summary today items hm).aging_buckets Bucket.over_90).count
        = (items.filter qualifies).length
      ∧ (get_aging_summary today items hm).total_open_invoices
        = (items.filter qualifies).length
      ∧ (∀ inv : RawInvoice, (agedOf today inv).isSome = qualifies inv)
      ∧ ∀ b : Bucket,
          ((get_aging_summary today items hm).aging_buckets b).count
            = ((agedInvoices today items).filter
                (fun a => decide (a.aging_bucket = b))).length := by
  have hcounts : ∀ b, ((get_aging_summary today items hm).aging_buckets b).count
      = ((agedInvoices today items).filter (fun a => decide (a.aging_bucket = b))).length := by
    intro b
    show (agingAcc today items).counts b = _
    exact agingAcc_counts today items b
  have hsum : ((get_aging_summary today items hm).aging_buckets Bucket.current).count
      + ((get_aging_summary today items hm).aging_buckets Bucket.d1_30).count
      + ((get_aging_summary today items hm).aging_buckets Bucket.d31_60).count
      + ((get_aging_summary today items hm).aging_buckets Bucket.d61_90).count
      + ((get_aging_summary today items hm).aging_buckets Bucket.over_90).count
      = (items.filter qualifies).length := by
    rw [hcounts, hcounts, hcounts, hcounts, hcounts,
      bucket_counts_partition, agedInvoices_length]
  refine ⟨hsum, ?_, fun inv => agedOf_isSome today inv, hcounts⟩
  show (agingAcc today items).counts Bucket.current
      + (agingAcc today items).counts Bucket.d1_30
      + (agingAcc today items).counts Bucket.d31_60
      + (agingAcc today items).counts Bucket.d61_90
      + (agingAcc today items).counts Bucket.over_90 = _
  exact hsum

/-- Claim C2: the bucket of every invoice classified by the aging loop
is determined by inclusive upper boundaries on the signed days past due
(`reference_date - due_date` in whole days): at most 0 gives `current`,
1 to 30 gives `1_30_days`, 31 to 60 gives `31_60_days`, 61 to 90 gives
`61_90_days`, and above 90 gives `over_90_days`; every invoice with a
positive balance and a parsed due date is classified through exactly
this function; and in particular 30 days past due is `1_30_days`, 31 is
`31_60_days`, and 0 (due today or in the future) is `current`. -/
theorem claim_C2 :
    (∀ d : Int,
        (classify d = Bucket.current ↔ d ≤ 0)
        ∧ (classify d = Bucket.d1_30 ↔ 1 ≤ d ∧ d ≤ 30)
        ∧ (classify d = Bucket.d31_60 ↔ 31 ≤ d ∧ d ≤ 60)
        ∧ (classify d = Bucket.d61_90 ↔ 61 ≤ d ∧ d ≤ 90)
        ∧ (classify d = Bucket.over_90 ↔ 90 < d))
      ∧ (∀ (today : Date) (inv : RawInvoice) (due : Date),
          0 < balanceOr0 inv → parsedDue inv = some due →
            (agedOf today inv).map (fun a => a.aging_bucket)
              = some (classify (daysPastDue today due)))
      ∧ classify 30 = Bucket.d1_30
      ∧ classify 31 = Bucket.d31_60
      ∧ classify 0 = Bucket.current := by
  refine ⟨?_, ?_, by decide, by decide, by decide⟩
  · intro d
    unfold classify
    split_ifs with h1 h2 h3 h4 <;>
      refine ⟨?_, ?_, ?_, ?_, ?_⟩ <;> simp_all <;> omega
  · intro today inv due h0 hdue
    unfold parsedDue at hdue
    unfold agedOf
    have hb : ¬ balanceOr0 inv ≤ 0 := not_le.mpr h0
    rw [if_neg hb]
    cases hd : dueStringOf inv with
    | none => rw [hd] at hdue; simp at hdue
    | some s =>
      rw [hd] at hdue
      simp only [Option.some_bind] at hdue
      dsimp only
      rw [hdue]
      rfl

/-- Inserting an entry whose key equals `d` into a descending-ordered
list puts it in front of every other key-`d` entry (stability of one
insertion step): entries with larger keys precede the insertion point
and are discarded by the key-`d` selection. -/
theorem filter_days_orderedInsert (d : Int) (a : AgedInvoice) (l : List AgedInvoice) :
    (l.orderedInsert agedGE a).filter (fun x => decide (x.days_past_due = d))
      = if a.days_past_due = d then
          a :: l.filter (fun x => decide (x.days_past_due = d))
        else l.filter (fun x => decide (x.days_past_due = d)) := by
  induction l with
  | nil =>
    by_cases ha : a.days_past_due = d <;>
      simp [List.orderedInsert, List.filter_cons, ha]
  | cons b t ih =>
    rw [List.orderedInsert]
    by_cases hr : agedGE a b
    · rw [if_pos hr]
      by_cases ha : a.days_past_due = d <;>
        simp [List.filter_cons, ha]
    · rw [if_neg hr]
      have hlt : a.days_past_due < b.days_past_due := by
        have := not_le.mp (fun h => hr h)
        exact this
      by_cases ha : a.days_past_due = d
      · have hbne : ¬ b.days_past_due = d := by omega
        simp [List.filter_cons, ha, hbne, ih]
      · by_cases hb : b.days_past_due = d <;>
          simp [List.filter_cons, ha, hb, ih]

/-- Stability of the whole sort: for every key value `d`, the key-`d`
entries of the sorted list are exactly the key-`d` entries of the input
in their original relative order. -/
theorem filter_days_insertionSort (d : Int) (l : List AgedInvoice) :
    (l.insertionSort agedGE).filter (fun x => decide (x.days_past_due = d))
      = l.filter (fun x => decide (x.days_past_due = d)) := by
  induction l with
  | nil => rfl
  | cons a t ih =>
    rw [List.insertionSort, filter_days_orderedInsert]
    by_cases ha : a.days_past_due = d <;> simp [List.filter_cons, ha, ih]

/-- Claim C3: the per-invoice detail list of `get_aging_summary` is
sorted in descending order of the reported `days_past_due`, and for
each value of that key the entries appear exactly as in the
upstream-order list `agedInvoices` (stable sort, no secondary key). -/
theorem claim_C3 (today : Date) (items : List RawInvoice) (hm : Bool) :
    List.Pairwise (fun a b : AgedInvoice => b.days_past_due ≤ a.days_past_due)
        (get_aging_summary today items hm).invoices
      ∧ ∀ d : Int,
          (get_aging_summary today items hm).invoices.filter
              (fun a => decide (a.days_past_due = d))
            = (agedInvoices today items).filter
              (fun a => decide (a.days_past_due = d)) := by
  constructor
  · have h : List.Sorted agedGE
        (List.insertionSort agedGE (agingAcc today items).aged) :=
      List.sorted_insertionSort agedGE _
    exact h
  · intro d
    show (List.insertionSort agedGE (agingAcc today items).aged).filter _ = _
    rw [filter_days_insertionSort, agingAcc_aged]

/-- Witness for claim C2: a concrete invoice due exactly 30 days before
the reference date is classified, and lands in the `1_30_days` bucket. -/
theorem claim_C2_witness :
    (agedOf ⟨2026, 10, 12⟩
        ⟨none, some "INV1", none, none, none, some "2026-09-12", none, some 100,
          none, none, none⟩).map (fun a => a.aging_bucket)
      = some (classify (daysPastDue ⟨2026, 10, 12⟩ ⟨2026, 9, 12⟩))
    ∧ classify (daysPastDue ⟨2026, 10, 12⟩ ⟨2026, 9, 12⟩) = Bucket.d1_30 := by
  constructor
  · exact claim_C2.2.1 ⟨2026, 10, 12⟩
      ⟨none, some "INV1", none, none, none, some "2026-09-12", none, some 100,
        none, none, none⟩ ⟨2026, 9, 12⟩ (by norm_num [balanceOr0]) (by decide)
  · decide

/-- Claim C4: a null upstream `EnteredAmount` contributes `0` to
`total_amount` (removing the record leaves the total unchanged) while
the projected `amount` stays null, and likewise a null `BalanceDue` for
`total_balance_due` and the projected `balance_due`. -/
theorem claim_C4 (inv : RawInvoice) (l1 l2 : List RawInvoice) (hm : Bool) (lim off : Nat) :
    (inv.EnteredAmount = none →
        (projectInvoice inv).amount = none
        ∧ (list_invoices (l1 ++ inv :: l2) hm lim off).total_amount
          = (list_invoices (l1 ++ l2) hm lim off).total_amount)
    ∧ (inv.BalanceDue = none →
        (projectInvoice inv).balance_due = none
        ∧ (list_invoices (l1 ++ inv :: l2) hm lim off).total_balance_due
          = (list_invoices (l1 ++ l2) hm lim off).total_balance_due) := by
  constructor
  · intro h
    refine ⟨by simp [projectInvoice, h], ?_⟩
    simp [list_invoices, projectInvoice, h]
  · intro h
    refine ⟨by simp [projectInvoice, h], ?_⟩
    simp [list_invoices, projectInvoice, h]

/-- A concrete invoice record all of whose optional numeric fields are
null. -/
def nullAmountInv : RawInvoice :=
  ⟨none, some "INV-NULL", none, none, none, none, none, none, none, none, none⟩

/-- Witness for claim C4: the null-amount invoice leaves both totals
unchanged while its projected numeric fields stay null. -/
theorem claim_C4_witness :
    ((projectInvoice nullAmountInv).amount = none
        ∧ (list_invoices [nullAmountInv] false 25 0).total_amount
          = (list_invoices [] false 25 0).total_amount)
      ∧ (projectInvoice nullAmountInv).balance_due = none
        ∧ (list_invoices [nullAmountInv] false 25 0).total_balance_due
          = (list_invoices [] false 25 0).total_balance_due := by
  exact ⟨(claim_C4 nullAmountInv [] [] false 25 0).1 rfl,
    (claim_C4 nullAmountInv [] [] false 25 0).2 rfl⟩

/-- A concrete invoice whose amount `1/8` has more than two decimal
places. -/
def eighthInv : RawInvoice :=
  ⟨none, some "INV-8", none, none, none, none, some (1 / 8), some (1 / 8),
    none, none, none⟩

/-- A concrete receipt whose amount `1/8` has more than two decimal
places. -/
def eighthRcpt : RawReceipt :=
  ⟨none, some "R-8", none, none, none, some (1 / 8), none, none, none, none⟩

/-- Counterexample to claim C5 as stated: `list_invoices` and
`list_receipts` do NOT round their totals at the point of output — on a
record with amount `1/8` the returned totals are `1/8` itself, which is
not a two-decimal value (rounding it would give `0.12`). -/
theorem claim_C5_counterexample :
    (list_invoices [eighthInv] false 25 0).total_amount
        ≠ round2 ((list_invoices [eighthInv] false 25 0).total_amount)
      ∧ (list_invoices [eighthInv] false 25 0).total_balance_due
        ≠ round2 ((list_invoices [eighthInv] false 25 0).total_balance_due)
      ∧ (list_receipts [eighthRcpt] false 25 0).total_collected
        ≠ round2 ((list_receipts [eighthRcpt] false 25 0).total_collected) := by
  have hfloor : ⌊(25 / 2 : ℚ)⌋ = 12 := by
    rw [Int.floor_eq_iff]
    norm_num
  have hround : round2 (1 / 8 : ℚ) = 3 / 25 := by
    simp only [round2, roundHalfEven]
    rw [show ((1 : ℚ) / 8 * 100) = 25 / 2 by norm_num, hfloor]
    norm_num
  have hinv : (list_invoices [eighthInv] false 25 0).total_amount = 1 / 8 := by
    simp [list_invoices, projectInvoice, eighthInv]
  have hbal : (list_invoices [eighthInv] false 25 0).total_balance_due = 1 / 8 := by
    simp [list_invoices, projectInvoice, eighthInv]
  have hrcpt : (list_receipts [eighthRcpt] false 25 0).total_collected = 1 / 8 := by
    simp [list_receipts, projectReceipt, eighthRcpt]
  rw [hinv, hbal, hrcpt, hround]
  norm_num

/-- Claim C5 as amended: the sums of `get_customer_summary`
(`total_invoiced`, `total_paid`, `outstanding_balance`) and of
`get_aging_summary` (each bucket amount and `total_outstanding`) are
rounded to 2 decimal places exactly at the point of output, from
full-precision internal accumulation; `list_invoices` and
`list_receipts`, however, return their totals as raw unrounded sums. -/
theorem claim_C5_amended (cid : String) (invoices : List RawInvoice)
    (receipts : List RawReceipt) (today : Date) (aitems : List RawInvoice)
    (hm : Bool) (lim off : Nat) :
    (customer_summary cid invoices receipts).summary.total_invoiced
        = round2 ((invoices.map (fun i => i.EnteredAmount.getD 0)).sum)
      ∧ (customer_summary cid invoices receipts).summary.total_paid
        = round2 ((receipts.map (fun r => r.Amount.getD 0)).sum)
      ∧ (customer_summary cid invoices receipts).summary.outstanding_balance
        = round2 ((invoices.map (fun i => i.BalanceDue.getD 0)).sum)
      ∧ (∀ b : Bucket,
          ((get_aging_summary today aitems hm).aging_buckets b).amount
            = round2 ((((agedInvoices today aitems).filter
                (fun a => decide (a.aging_bucket = b))).map
                  (fun a => a.balance_due)).sum))
      ∧ (get_aging_summary today aitems hm).total_outstanding
        = round2 (((agedInvoices today aitems).map (fun a => a.balance_due)).sum)
      ∧ (list_invoices aitems hm lim off).total_amount
        = (aitems.map (fun i => i.EnteredAmount.getD 0)).sum
      ∧ (list_invoices aitems hm lim off).total_balance_due
        = (aitems.map (fun i => i.BalanceDue.getD 0)).sum
      ∧ (list_receipts receipts hm lim off).total_collected
        = (receipts.map (fun r => r.Amount.getD 0)).sum := by
  refine ⟨rfl, rfl, rfl, ?_, ?_, ?_, ?_, ?_⟩
  · intro b
    show round2 ((agingAcc today aitems).amounts b) = _
    rw [agingAcc_amounts]
  · show round2 ((agingAcc today aitems).amounts Bucket.current
        + (agingAcc today aitems).amounts Bucket.d1_30
        + (agingAcc today aitems).amounts Bucket.d31_60
        + (agingAcc today aitems).amounts Bucket.d61_90
        + (agingAcc today aitems).amounts Bucket.over_90) = _
    rw [agingAcc_amounts, agingAcc_amounts, agingAcc_amounts, agingAcc_amounts,
      agingAcc_amounts, bucket_amounts_partition]
  · show ((aitems.map projectInvoice).map (fun i => i.amount.getD 0)).sum = _
    rw [List.map_map]
    rfl
  · show ((aitems.map projectInvoice).map (fun i => i.balance_due.getD 0)).sum = _
    rw [List.map_map]
    rfl
  · show ((receipts.map projectReceipt).map (fun r => r.amount.getD 0)).sum = _
    rw [List.map_map]
    rfl

/-- Claim C6: `get_customer_summary` resolves the customer display name
from the first invoice when any invoice exists, otherwise from the
first receipt when any receipt exists, and yields null only when both
record sets are empty. -/
theorem claim_C6 (cid : String) (invoices : List RawInvoice)
    (receipts : List RawReceipt) :
    (∀ inv rest, invoices = inv :: rest →
        (customer_summary cid invoices receipts).customer.customer_name
          = inv.BillToCustomerName)
      ∧ (invoices = [] → ∀ rcpt rest, receipts = rcpt :: rest →
          (customer_summary cid invoices receipts).customer.customer_name
            = rcpt.CustomerName)
      ∧ (invoices = [] → receipts = [] →
          (customer_summary cid invoices receipts).customer.customer_name = none) := by
  refine ⟨?_, ?_, ?_⟩
  · intro inv rest h
    subst h
    rfl
  · intro h rcpt rest h2
    subst h
    subst h2
    rfl
  · intro h h2
    subst h
    subst h2
    rfl

/-- A concrete receipt carrying a customer name. -/
def namedRcpt : RawReceipt :=
  ⟨none, some "R1", some "C1", some "Acme Corp", none, some 50, none, none,
    none, none⟩

/-- Witness for claim C6: with zero invoices and one receipt the
summary's customer name is the receipt's customer name, not null. -/
theorem claim_C6_witness :
    (customer_summary "C1" [] [namedRcpt]).customer.customer_name
      = some "Acme Corp" := by
  have h := (claim_C6 "C1" [] [namedRcpt]).2.1 rfl namedRcpt [] rfl
  exact h.trans rfl

/-- Claim C7: an upstream HTTP 401 maps to the authentication-failure
payload with no attached data, and every fetch failure makes each of
the five tools return exactly the normalized structured error payload
(the `failure` case carries only an `ErrorPayload`, never any invoices,
counts, totals, or buckets), rather than propagating the exception or a
partial aggregation. -/
theorem claim_C7 :
    (∀ body : String,
        handle_api_error (ApiError.httpStatus 401 body)
          = ⟨"Authentication failed. Check username and password.", none⟩)
      ∧ (∀ (p : InvoiceLookupInput) (e : ApiError),
          list_invoices_tool p (Except.error e)
            = ToolResult.failure (handle_api_error e))
      ∧ (∀ (lim off : Nat) (e : ApiError),
          list_receipts_tool lim off (Except.error e)
            = ToolResult.failure (handle_api_error e))
      ∧ (∀ (lim off : Nat) (e : ApiError),
          list_customer_activities_tool lim off (Except.error e)
            = ToolResult.failure (handle_api_error e))
      ∧ (∀ (cid : String) (e : ApiError) (fr : Except ApiError (List RawReceipt)),
          get_customer_summary_tool cid (Except.error e) fr
            = ToolResult.failure (handle_api_error e))
      ∧ (∀ (cid : String) (invs : List RawInvoice) (e : ApiError),
          get_customer_summary_tool cid (Except.ok invs) (Except.error e)
            = ToolResult.failure (handle_api_error e))
      ∧ (∀ (today : Date) (e : ApiError),
          get_aging_summary_tool today (Except.error e)
            = ToolResult.failure (handle_api_error e)) :=
  ⟨fun _ => rfl, fun _ _ => rfl, fun _ _ _ => rfl, fun _ _ _ => rfl,
    fun _ _ _ => rfl, fun _ _ _ => rfl, fun _ _ => rfl⟩

/-- Claim C8: in each listing response the `count` field equals the
length of the detail sequence returned alongside it. -/
theorem claim_C8 (invItems : List RawInvoice) (rcptItems : List RawReceipt)
    (actItems : List RawActivity) (hm : Bool) (lim off : Nat) :
    (list_invoices invItems hm lim off).count
        = (list_invoices invItems hm lim off).invoices.length
      ∧ (list_receipts rcptItems hm lim off).count
        = (list_receipts rcptItems hm lim off).receipts.length
      ∧ (list_customer_activities actItems hm lim off).count
        = (list_customer_activities actItems hm lim off).activities.length :=
  ⟨rfl, rfl, rfl⟩

/-- Claim C9: the `status` field accepted by `InvoiceLookupInput` is
never used: two `list_invoices` invocations differing only in `status`
build the same upstream query parameters and, on the same fetched
record set, produce identical responses. -/
theorem claim_C9 (p : InvoiceLookupInput) (s1 s2 : Option String)
    (fetch : Except ApiError (List RawInvoice × Bool)) :
    invoiceQueryParams { p with status := s1 }
        = invoiceQueryParams { p with status := s2 }
      ∧ list_invoices_tool { p with status := s1 } fetch
        = list_invoices_tool { p with status := s2 } fetch := by
  cases p
  exact ⟨rfl, rfl⟩

/-- Claim C10: an invoice whose `BalanceDue` is absent or null is
treated as balance `0`: it produces no aging entry, and the whole
`get_aging_summary` response (buckets, totals, detail list) is the same
as if the invoice were not fetched at all — exactly the behavior of a
non-positive balance. -/
theorem claim_C10 (today : Date) (inv : RawInvoice) (l1 l2 : List RawInvoice)
    (hm : Bool) :
    inv.BalanceDue = none →
      agedOf today inv = none
        ∧ get_aging_summary today (l1 ++ inv :: l2) hm
          = get_aging_summary today (l1 ++ l2) hm
        ∧ ∀ b : ℚ, b ≤ 0 → agedOf today { inv with BalanceDue := some b } = none := by
  intro h
  have hnone : agedOf today inv = none := by
    unfold agedOf balanceOr0
    rw [h]
    simp
  have hstep : ∀ acc : AgingAcc, agingStep today acc inv = acc := by
    intro acc
    unfold agingStep
    rw [hnone]
  refine ⟨hnone, ?_, ?_⟩
  · have hacc : agingAcc today (l1 ++ inv :: l2) = agingAcc today (l1 ++ l2) := by
      unfold agingAcc
      rw [List.foldl_append, List.foldl_append, List.foldl_cons, hstep]
    unfold get_aging_summary
    rw [hacc]
  · intro b hb
    unfold agedOf balanceOr0
    simp [hb]

/-- A concrete invoice with a null balance due but a valid due date. -/
def nullBalanceInv : RawInvoice :=
  ⟨none, some "INV-NB", none, none, none, some "2026-09-12", some 100, none,
    none, none, none⟩

/-- Witness for claim C10: the null-balance invoice is excluded and the
aging response equals the response for the empty record set. -/
theorem claim_C10_witness :
    agedOf ⟨2026, 10, 12⟩ nullBalanceInv = none
      ∧ get_aging_summary ⟨2026, 10, 12⟩ [nullBalanceInv] false
        = get_aging_summary ⟨2026, 10, 12⟩ [] false
      ∧ agedOf ⟨2026, 10, 12⟩ { nullBalanceInv with BalanceDue := some (-5) } = none := by
  have h := claim_C10 ⟨2026, 10, 12⟩ nullBalanceInv [] [] false rfl
  exact ⟨h.1, h.2.1, h.2.2 (-5) (by norm_num)⟩
